import Mathlib

/-!
Verification of the decision engine of the AI-enhanced CI/CD repository.

The TypeScript sources are embedded shallowly:

* JavaScript numbers are modelled as `ℚ`; the IEEE value `NaN` — which in the
  sources can only arise from `parseFloat`/`Number` coercions — is modelled by
  `none` in an `Option ℚ`, and coercions that can produce it return `Option ℚ`.
* JavaScript strings are modelled as `String` (processed as `List Char`);
  the string helpers below (`jsIncludes`, `jsTrimList`, …) mirror the exact
  `String.prototype` methods used by the sources.
* Loosely typed JSON values are modelled by the inductive type `JSVal`;
  `JSON.parse` failure is modelled by `Option JSVal = none` at the call
  boundary, and a JavaScript `TypeError` thrown by a property access on
  `null` is modelled with `Except Unit`.

Each definition carries a reference to the source file and lines it embeds.
-/

/-! ## JavaScript string primitives -/

/-- The ASCII fragment of JavaScript whitespace (`\s`, `trim`). The sources
only ever meet ASCII text, so the Unicode space characters are omitted. -/
def isJsSpace (c : Char) : Bool :=
  c == ' ' || c == '\t' || c == '\n' || c == '\r' || c == '\x0b' || c == '\x0c'

def isJsDigit (c : Char) : Bool :=
  '0' ≤ c && c ≤ '9'

def isDigitOrDot (c : Char) : Bool :=
  isJsDigit c || c == '.'

/-- Substring test on character lists, mirroring `String.prototype.includes`. -/
def jsIncludesCore (needle : List Char) : List Char → Bool
  | [] => needle.isEmpty
  | c :: cs => needle.isPrefixOf (c :: cs) || jsIncludesCore needle cs

/-- `hay.includes(needle)` — case-sensitive substring containment. -/
def jsIncludes (hay needle : String) : Bool :=
  jsIncludesCore needle.toList hay.toList

/-- `String.prototype.toLowerCase` (ASCII fragment). -/
def jsToLower (s : String) : String :=
  (s.toList.map Char.toLower).asString

/-- `String.prototype.trim` on a character list. -/
def jsTrimList (cs : List Char) : List Char :=
  ((cs.dropWhile isJsSpace).reverse.dropWhile isJsSpace).reverse

/-- `String.prototype.split(sep)` for a one-character separator.
`split` of the empty string yields one empty field, as in JavaScript. -/
def splitOnChar (sep : Char) : List Char → List (List Char)
  | [] => [[]]
  | c :: cs =>
    match splitOnChar sep cs with
    | [] => if c == sep then [[], []] else [[c]]
    | h :: t => if c == sep then [] :: h :: t else (c :: h) :: t

/-- Digits-to-natural accumulator for number parsing. -/
def digitsToNat (ds : List Char) : ℕ :=
  ds.foldl (fun a c => 10 * a + (c.toNat - 48)) 0

/-- `parseFloat` restricted to strings over `[0-9.]` — exactly the tokens the
regex captures `([\d.]+)` of `parseResponse` can produce. `parseFloat` reads
the longest prefix `digits ('.' digits*)?`; if that prefix contains no digit
the result is `NaN`, modelled as `none`. -/
def parseFloatDigitsDots (tok : List Char) : Option ℚ :=
  let d1 := tok.takeWhile isJsDigit
  let rest := tok.drop d1.length
  let d2 := match rest with
    | '.' :: r => r.takeWhile isJsDigit
    | _ => []
  if d1.isEmpty && d2.isEmpty then none
  else some ((digitsToNat d1 : ℚ) + (digitsToNat d2 : ℚ) / (10 : ℚ) ^ d2.length)

/-- `Math.max(0, Math.min(1, x))` where `x` may be `NaN`: both `Math.min` and
`Math.max` propagate `NaN`, so the clamp does not repair it. -/
def jsClamp01 : Option ℚ → Option ℚ
  | none => none
  | some q => some (max 0 (min 1 q))

/-- `Math.round` — rounds half toward positive infinity, as JavaScript does. -/
def jsRound (q : ℚ) : ℤ :=
  ⌊q + 1 / 2⌋

/-- `Number.prototype.toFixed(2)` for the non-negative scores the classifier
formats: round to the nearest hundredth (ties up) and print two decimals. -/
def toFixed2 (q : ℚ) : String :=
  let n := (jsRound (q * 100)).toNat
  toString (n / 100) ++ "." ++ (if n % 100 < 10 then "0" else "") ++ toString (n % 100)

/-- `Number.prototype.toFixed(1)` for the non-negative scores the deployment
gate formats. -/
def toFixed1 (q : ℚ) : String :=
  let n := (jsRound (q * 10)).toNat
  toString (n / 10) ++ "." ++ toString (n % 10)

/-! ## Failure classifier

Model of `AITestPredictor.shouldRetryTest`
(src/unnamed/part_005, lines 164-198). The `flakePatterns` map of the class
instance is passed explicitly as an association list; `Map.get` returning
`undefined` followed by `|| 0` is `(lookup …).getD 0` (a stored `0` is also
falsy and yields `0`, so `getD 0` is exact). -/

structure RetryCheck where
  shouldRetry : Bool
  reason : String
  confidence : ℚ
  recommendedDelay : ℤ
deriving DecidableEq

def shouldRetryTest (flakePatterns : List (String × ℚ)) (testName error : String)
    (attemptNumber : ℤ) : RetryCheck :=
  let flakeScore : ℚ := (flakePatterns.lookup testName).getD 0
  let isNetworkError := jsIncludes error "timeout" || jsIncludes error "network" ||
    jsIncludes error "ECONNRESET"
  let isFlaky := decide (flakeScore > 0.3) || isNetworkError
  if attemptNumber ≥ 3 then
    { shouldRetry := false, reason := "Maximum retry attempts reached",
      confidence := 0.95, recommendedDelay := 0 }
  else if !isFlaky then
    { shouldRetry := false, reason := "Error pattern indicates real failure, not flakiness",
      confidence := 0.87, recommendedDelay := 0 }
  else
    { shouldRetry := true,
      reason := "Flaky test detected (score: " ++ toFixed2 flakeScore ++ ")",
      confidence := 0.82, recommendedDelay := min (2000 * attemptNumber) 10000 }

/-- The mock flake-pattern table installed by
`AITestPredictor.initializeHistoricalData` (src/unnamed/part_005,
lines 370-375). -/
def initialFlakePatterns : List (String × ℚ) :=
  [("Authentication Tests", 0.35), ("API Integration Tests", 0.28),
   ("UI Component Tests", 0.45), ("Database Tests", 0.15),
   ("Integration Tests", 0.20)]

/-! ## Pipeline-optimizer retry wrapper

Model of `AIPipelineOptimizer.handleTestFailure`
(src/src/ai-pipeline-optimizer.ts, lines 82-113). The declared result type
admits the action `skip`, and `action` is initialised to `fail`, promoted to
`retry` when the predictor says to retry, and re-assigned `fail` (its current
value) when `attemptNumber >= 3`. -/

inductive FailureAction where
  | retry | fail | skip
deriving DecidableEq

structure FailureHandling where
  action : FailureAction
  reason : String
  delay : ℤ
  confidence : ℚ
deriving DecidableEq

def handleTestFailure (flakePatterns : List (String × ℚ)) (testName error : String)
    (attemptNumber : ℤ) : FailureHandling :=
  let retryDecision := shouldRetryTest flakePatterns testName error attemptNumber
  let action : FailureAction :=
    if retryDecision.shouldRetry then .retry
    else if attemptNumber ≥ 3 then .fail
    else .fail
  { action := action, reason := retryDecision.reason,
    delay := retryDecision.recommendedDelay, confidence := retryDecision.confidence }

/-! ## Deployment gate

Model of the heuristic branch of `AICIDemo.makeAIDeploymentDecision`
(src/src/ai-demo.ts, lines 1408-1430) — the decision logic that runs when the
external oracle is unavailable or fails; the oracle branch merely delegates
to the external service and is outside the decision core. -/

structure DeploymentData where
  testSuccessRate : ℚ
  securityScore : ℚ
  performanceScore : ℚ
  codeQuality : ℚ
  criticalIssues : List String

structure DeploymentDecision where
  approved : Bool
  score : ℤ
  reasoning : List String
deriving DecidableEq

def makeAIDeploymentDecision (data : DeploymentData) : DeploymentDecision :=
  let overallScore := (data.testSuccessRate + data.securityScore +
    data.performanceScore + data.codeQuality) / 4
  let scorePercentage := jsRound (overallScore * 100)
  let approved := decide (overallScore > 0.85) && decide (data.criticalIssues.length = 0)
  let reasoning : List String :=
    if approved then
      ["Test success rate: " ++ toFixed1 (data.testSuccessRate * 100) ++ "%",
       "Security score: " ++ toFixed1 (data.securityScore * 100) ++ "/100",
       "Performance score: " ++ toFixed1 (data.performanceScore * 100) ++ "/100",
       "Code quality: " ++ toFixed1 (data.codeQuality * 100) ++ "/100",
       "All metrics above deployment threshold"]
    else
      ["Overall score " ++ toString scorePercentage ++ "% below 85% threshold",
       "Critical issues detected: " ++ toString data.criticalIssues.length,
       "Manual review recommended before deployment",
       "Address critical issues and retry deployment decision"]
  { approved := approved, score := scorePercentage, reasoning := reasoning }

/-! ## Risk predictor (heuristic fallback path)

Models from `AITestPredictor` (src/unnamed/part_005). -/

inductive RiskLevel where
  | high | medium | low
deriving DecidableEq, BEq

inductive ChangeKind where
  | modified | added | deleted
deriving DecidableEq

inductive ChangeCategory where
  | auth | api | ui | database | config | other
deriving DecidableEq

/-- `CodeChange` (src/unnamed/part_005, lines 9-14). -/
structure CodeChange where
  file : String
  changeType : ChangeKind
  linesChanged : ℕ
  category : ChangeCategory

/-- `TestPrediction` (src/unnamed/part_005, lines 16-25). -/
structure TestPrediction where
  testFile : String
  testSuite : String
  failureProbability : ℚ
  confidence : ℚ
  reason : String
  recommendation : String
  priority : RiskLevel
  estimatedRunTime : ℚ

/-- `AITestPredictor.predictTestsForChange` (src/unnamed/part_005,
lines 229-300): one prediction per change, chosen by category; the `switch`
default covers both `config` and `other`. -/
def predictTestsForChange (change : CodeChange) : List TestPrediction :=
  match change.category with
  | .auth =>
    [{ testFile := "tests/auth.spec.ts", testSuite := "Authentication Tests",
       failureProbability := 0.78, confidence := 0.91,
       reason := "Authentication module modified (" ++ toString change.linesChanged ++ " lines)",
       recommendation := "Run auth tests first with increased timeout",
       priority := .high, estimatedRunTime := 45 }]
  | .api =>
    [{ testFile := "tests/api.spec.ts", testSuite := "API Integration Tests",
       failureProbability := 0.65, confidence := 0.87,
       reason := "API endpoints modified (" ++ toString change.linesChanged ++ " lines)",
       recommendation := "Test API endpoints with retry logic",
       priority := .high, estimatedRunTime := 60 }]
  | .ui =>
    [{ testFile := "tests/ui.spec.ts", testSuite := "UI Component Tests",
       failureProbability := 0.34, confidence := 0.82,
       reason := "UI components modified (" ++ toString change.linesChanged ++ " lines)",
       recommendation := "Standard execution with visual regression checks",
       priority := .medium, estimatedRunTime := 90 }]
  | .database =>
    [{ testFile := "tests/database.spec.ts", testSuite := "Database Tests",
       failureProbability := 0.45, confidence := 0.85,
       reason := "Database schema/queries modified (" ++ toString change.linesChanged ++ " lines)",
       recommendation := "Run database tests in isolation",
       priority := .medium, estimatedRunTime := 30 }]
  | _ =>
    [{ testFile := "tests/integration.spec.ts", testSuite := "Integration Tests",
       failureProbability := 0.12, confidence := 0.75,
       reason := "General code changes (" ++ toString change.linesChanged ++ " lines)",
       recommendation := "Standard test execution",
       priority := .low, estimatedRunTime := 120 }]

/-- The comparator `(a, b) => b.failureProbability - a.failureProbability`
passed to `Array.prototype.sort`: `a` may precede `b` exactly when the
comparator is non-positive, i.e. when `b.failureProbability ≤
a.failureProbability`. `Array.prototype.sort` is stable. -/
def probDescLE (a b : TestPrediction) : Bool :=
  decide (b.failureProbability ≤ a.failureProbability)

/-- The heuristic fallback path of `AITestPredictor.analyzeCodeChanges`
(src/unnamed/part_005, lines 95-108): collect `predictTestsForChange` for each
change in order, then stably sort by descending failure probability. The
Gemini branch (lines 65-93) delegates to the external oracle and is taken
only when an API key is configured. -/
def analyzeCodeChangesFallback (changes : List CodeChange) : List TestPrediction :=
  (changes.flatMap predictTestsForChange).mergeSort probDescLE

/-- `Math.max` over the run times of a group of tests. `Math.max()` of an
empty list is `-Infinity` in JavaScript; the sole caller
(`calculateOptimizedTime` on the groups built by
`generateOptimizationStrategy`) only ever produces non-empty groups drawn
from the predictions themselves, so the empty case is unreachable there and
is modelled as `0`. -/
def maxQ : List ℚ → ℚ
  | [] => 0
  | [x] => x
  | x :: y :: rest => max x (maxQ (y :: rest))

/-- `AITestPredictor.calculateOptimizedTime` (src/unnamed/part_005,
lines 314-329). -/
def calculateOptimizedTime (predictions : List TestPrediction)
    (parallelGroups : List (List String)) : ℚ :=
  if parallelGroups.length = 0 then
    predictions.foldl (fun sum p => sum + p.estimatedRunTime) 0
  else
    parallelGroups.foldl (fun totalTime group =>
      let groupTests := predictions.filter (fun p => group.contains p.testSuite)
      let groupTime := maxQ (groupTests.map (·.estimatedRunTime))
      totalTime + groupTime) 0

/-- `AITestPredictor.calculateRetries` (src/unnamed/part_005, lines 302-312). -/
def calculateRetries (flakePatterns : List (String × ℚ)) (prediction : TestPrediction) : ℕ :=
  let flakeScore : ℚ := (flakePatterns.lookup prediction.testSuite).getD 0
  if prediction.priority == .high && decide (flakeScore > 0.3) then 3
  else if prediction.priority == .medium && decide (flakeScore > 0.2) then 2
  else 1

structure SuiteAlloc where
  runners : ℕ
  timeout : ℚ
  retries : ℕ
deriving DecidableEq

/-- Assignment `obj[key] = value` on a JavaScript object: an existing key
keeps its position and gets the new value, a new key is appended. -/
def jsObjSet (v : SuiteAlloc) (key : String) :
    List (String × SuiteAlloc) → List (String × SuiteAlloc)
  | [] => [(key, v)]
  | (k, w) :: rest =>
    if k == key then (k, v) :: rest else (k, w) :: jsObjSet v key rest

/-- `OptimizationStrategy` (src/unnamed/part_005, lines 27-38); the
`resourceAllocation` object is modelled as an insertion-ordered association
list. -/
structure OptimizationStrategy where
  executionOrder : List String
  parallelGroups : List (List String)
  resourceAllocation : List (String × SuiteAlloc)
  totalEstimatedTime : ℚ

/-- `AITestPredictor.generateOptimizationStrategy` (src/unnamed/part_005,
lines 114-159). -/
def generateOptimizationStrategy (flakePatterns : List (String × ℚ))
    (predictions : List TestPrediction) : OptimizationStrategy :=
  let highRisk := predictions.filter (fun p => p.priority == .high)
  let mediumRisk := predictions.filter (fun p => p.priority == .medium)
  let lowRisk := predictions.filter (fun p => p.priority == .low)
  let executionOrder := highRisk.map (·.testSuite) ++ mediumRisk.map (·.testSuite) ++
    lowRisk.map (·.testSuite)
  let parallelGroups := [highRisk.map (·.testSuite), mediumRisk.map (·.testSuite),
    lowRisk.map (·.testSuite)].filter (fun group => decide (0 < group.length))
  let resourceAllocation := predictions.foldl (fun acc pred =>
    jsObjSet
      { runners := if pred.priority == .high then 2 else 1,
        timeout := if pred.priority == .high then pred.estimatedRunTime * 2
          else pred.estimatedRunTime * 1.5,
        retries := calculateRetries flakePatterns pred }
      pred.testSuite acc) []
  let totalEstimatedTime := calculateOptimizedTime predictions parallelGroups
  { executionOrder := executionOrder, parallelGroups := parallelGroups,
    resourceAllocation := resourceAllocation, totalEstimatedTime := totalEstimatedTime }

/-- Total estimated time as §4.2/§4.3 of the specification words it: the sum,
over the non-empty tier groups (high, medium, low in that order), of the
maximum `estimatedRunTimeSeconds` within the tier. Stated from the spec, to
be compared with the implementation's `calculateOptimizedTime`. -/
def specTotalEstimatedSeconds (predictions : List TestPrediction) : ℚ :=
  ((([RiskLevel.high, .medium, .low].map
      (fun t => predictions.filter (fun p => p.priority == t))).filter
    (fun g => decide (0 < g.length))).map
    (fun g => maxQ (g.map (·.estimatedRunTime)))).sum

/-! ## Signal normalizer, plain-text variant

Model of `GeminiAIClient.parseResponse` of the simple client
(src/src/gemini-ai-client.ts, second module in the file, lines 651-693).
It scrapes the oracle's free text with three regexes and line filters. No
operation in its `try` block can throw on a string input, so the `catch`
branch (which would call `fallbackAnalysis`) is unreachable and is not part
of the model. `NaN` produced by `parseFloat` on a digitless capture is
modelled as `none` and survives the clamp (`jsClamp01`). -/

/-- First match of `/risk level:\s*(high|medium|low)/` on the (already
lowercased) text: at each position, match the literal, skip the greedy `\s*`,
then try the three alternatives; on failure resume the scan one character
further. -/
def scanRisk : List Char → Option RiskLevel
  | [] => none
  | c :: cs =>
    if "risk level:".toList.isPrefixOf (c :: cs) then
      let rest := ((c :: cs).drop "risk level:".toList.length).dropWhile isJsSpace
      if "high".toList.isPrefixOf rest then some .high
      else if "medium".toList.isPrefixOf rest then some .medium
      else if "low".toList.isPrefixOf rest then some .low
      else scanRisk cs
    else scanRisk cs

/-- First match of `/<lit>\s*([\d.]+)/`: at each position, match the literal,
skip the greedy `\s*`, then capture the maximal non-empty run of `[\d.]`
characters; an empty run fails the match and the scan resumes one character
further. -/
def scanNumToken (lit : List Char) : List Char → Option (List Char)
  | [] => none
  | c :: cs =>
    if lit.isPrefixOf (c :: cs) then
      let tok := (((c :: cs).drop lit.length).dropWhile isJsSpace).takeWhile isDigitOrDot
      if tok.isEmpty then scanNumToken lit cs else some tok
    else scanNumToken lit cs

/-- `line.replace(/^[-*]\s*/, '')`. -/
def stripLeadBullet : List Char → List Char
  | [] => []
  | c :: cs => if c == '-' || c == '*' then cs.dropWhile isJsSpace else c :: cs

/-- The `AICodeAnalysis` record as `parseResponse` populates it; the numeric
fields are `Option ℚ` because `parseFloat` can hand them `NaN`. -/
structure SuiteEntry where
  name : String
  priority : RiskLevel
  estimatedRunTime : ℚ
deriving DecidableEq

structure AICodeAnalysisTxt where
  riskLevel : RiskLevel
  failureProbability : Option ℚ
  confidence : Option ℚ
  reasoning : String
  recommendations : List String
  testSuites : List SuiteEntry
deriving DecidableEq

def parseResponse (text : String) (_changedFiles : List String) : AICodeAnalysisTxt :=
  let cs := text.toList
  let lower := cs.map Char.toLower
  let riskLevel := (scanRisk lower).getD .medium
  let failureProbability := match scanNumToken "failure probability:".toList cs with
    | some tok => parseFloatDigitsDots tok
    | none => some 0.5
  let confidence := match scanNumToken "confidence:".toList cs with
    | some tok => parseFloatDigitsDots tok
    | none => some 0.8
  let lines := splitOnChar '\n' cs
  let reasoning := ((lines.find? (fun l =>
      let ll := l.map Char.toLower
      jsIncludesCore "reasoning".toList ll || jsIncludesCore "because".toList ll ||
        jsIncludesCore "analysis".toList ll)).map List.asString).getD "AI analysis completed"
  let recommendations0 := (((lines.filter (fun l =>
      jsIncludesCore "recommend".toList l || jsIncludesCore "suggest".toList l ||
        jsIncludesCore "-".toList l)).take 3).map
    (fun l => jsTrimList (stripLeadBullet l))).filter (fun rec => 10 < rec.length)
  let recommendations := if recommendations0.isEmpty then
      ["Monitor test execution", "Review code changes"]
    else recommendations0.map List.asString
  { riskLevel := riskLevel,
    failureProbability := jsClamp01 failureProbability,
    confidence := jsClamp01 confidence,
    reasoning := (reasoning.toList.take 100).asString,
    recommendations := recommendations.take 3,
    testSuites := [{ name := "Integration Tests", priority := riskLevel,
                     estimatedRunTime := 60 }] }

/-! ## Signal normalizer, JSON variant

Model of `GeminiAIClient.parseCodeAnalysisResponse` of the full client
(src/src/gemini-ai-client.ts, lines 242-290) together with its fallback
`fallbackCodeAnalysis` (lines 341-368) and `generateDefaultTestSuites`
(lines 408-426). The markdown/JSON extraction regexes and `JSON.parse`
itself are the JavaScript library boundary; their outcome is the model's
input: `none` when no parse succeeds (which lands in the `catch` and falls
back), `some v` for a parsed JSON value `v`. -/

inductive JSVal where
  | jnull
  | jbool (b : Bool)
  | jnum (q : ℚ)
  | jstr (s : String)
  | jarr (elems : List JSVal)
  | jobj (fields : List (String × JSVal))

/-- Truthiness of a JSON value (`NaN` cannot occur in parsed JSON). -/
def jsTruthy : JSVal → Bool
  | .jnull => false
  | .jbool b => b
  | .jnum q => decide (q ≠ 0)
  | .jstr s => decide (s ≠ "")
  | .jarr _ => true
  | .jobj _ => true

/-- `x || d` on a possibly-absent JSON value: the default replaces
`undefined` and falsy values. -/
def jsOrVal (v : Option JSVal) (d : JSVal) : JSVal :=
  match v with
  | none => d
  | some x => if jsTruthy x then x else d

/-- `n || d` after a `Number(…)` coercion: `NaN` (`none`) and `0` are falsy
and replaced by the default. -/
def jsOr (n : Option ℚ) (d : ℚ) : ℚ :=
  match n with
  | none => d
  | some q => if q = 0 then d else q

mutual
/-- `String(v)` — ECMAScript ToString on the JSON fragment. Numbers are
rendered in plain decimal (`decimalOfRat`), which agrees with JavaScript on
every value `JSON.parse` can produce from the short decimal literals these
sources handle. -/
def jsToString : JSVal → String
  | .jnull => "null"
  | .jbool b => if b then "true" else "false"
  | .jnum q => decimalOfRat q
  | .jstr s => s
  | .jarr l => jsArrToString l
  | .jobj _ => "[object Object]"

/-- `Array.prototype.toString`: elements joined with `","`; `null` joins as
the empty string. -/
def jsArrToString : List JSVal → String
  | [] => ""
  | [v] => jsElemToString v
  | v :: w :: rest => jsElemToString v ++ "," ++ jsArrToString (w :: rest)

def jsElemToString : JSVal → String
  | .jnull => ""
  | v => jsToString v

/-- Plain decimal rendering of a rational: exact whenever the denominator
divides a power of ten (always the case for parsed JSON decimals); the
fractional expansion is cut off at 40 digits otherwise. -/
def decimalOfRat (q : ℚ) : String
  := (if q < 0 then "-" else "") ++
    (let a := |q|
     let ip := a.floor.toNat
     let frac := a - ip
     if frac = 0 then toString ip
     else toString ip ++ "." ++ fracDigits frac 40)

def fracDigits (x : ℚ) : ℕ → String
  | 0 => ""
  | fuel + 1 =>
    if x = 0 then ""
    else
      let y := x * 10
      let d := y.floor.toNat
      toString d ++ fracDigits (y - d) fuel
end

/-- `Number(s)` — ECMAScript ToNumber on a string, for the decimal, hex,
octal and binary literal forms; `none` is `NaN`. `"Infinity"` is not
representable in `ℚ` and is also mapped to `none`; no theorem below
evaluates it. -/
def jsStrToNum (s : String) : Option ℚ :=
  let cs := jsTrimList s.toList
  match cs with
  | [] => some 0
  | '0' :: x :: rest =>
    if (x == 'x' || x == 'X') && rest ≠ [] && rest.all isHexDigit then
      some (hexToNat rest : ℚ)
    else if (x == 'o' || x == 'O') && rest ≠ [] && rest.all isOctDigit then
      some (octToNat rest : ℚ)
    else if (x == 'b' || x == 'B') && rest ≠ [] && rest.all isBinDigit then
      some (binToNat rest : ℚ)
    else parseSignedDec cs
  | _ => parseSignedDec cs
where
  isHexDigit (c : Char) : Bool :=
    isJsDigit c || ('a' ≤ c && c ≤ 'f') || ('A' ≤ c && c ≤ 'F')
  isOctDigit (c : Char) : Bool := '0' ≤ c && c ≤ '7'
  isBinDigit (c : Char) : Bool := c == '0' || c == '1'
  hexVal (c : Char) : ℕ :=
    if isJsDigit c then c.toNat - 48
    else if 'a' ≤ c && c ≤ 'f' then c.toNat - 87
    else c.toNat - 55
  hexToNat (ds : List Char) : ℕ := ds.foldl (fun a c => 16 * a + hexVal c) 0
  octToNat (ds : List Char) : ℕ := ds.foldl (fun a c => 8 * a + (c.toNat - 48)) 0
  binToNat (ds : List Char) : ℕ := ds.foldl (fun a c => 2 * a + (c.toNat - 48)) 0
  parseSignedDec (cs : List Char) : Option ℚ :=
    match cs with
    | '+' :: rest => parseDec rest
    | '-' :: rest => (parseDec rest).map Neg.neg
    | _ => parseDec cs
  parseDec (cs : List Char) : Option ℚ :=
    let d1 := cs.takeWhile isJsDigit
    let afterInt := cs.drop d1.length
    let d2 := match afterInt with
      | '.' :: r => r.takeWhile isJsDigit
      | _ => []
    let afterFrac := match afterInt with
      | '.' :: r => r.drop d2.length
      | _ => afterInt
    if d1.isEmpty && d2.isEmpty then none
    else
      let mant : ℚ := (digitsToNat d1 : ℚ) + (digitsToNat d2 : ℚ) / (10 : ℚ) ^ d2.length
      match afterFrac with
      | [] => some mant
      | e :: rest =>
        if e == 'e' || e == 'E' then
          let (esign, edigits) := match rest with
            | '+' :: r => ((1 : ℤ), r)
            | '-' :: r => ((-1 : ℤ), r)
            | r => ((1 : ℤ), r)
          if edigits ≠ [] && edigits.all isJsDigit then
            some (mant * (10 : ℚ) ^ (esign * (digitsToNat edigits : ℤ)))
          else none
        else none

/-- `Number(v)` — ToNumber on a possibly-absent JSON value:
`Number(undefined) = NaN`, `Number(null) = 0`, booleans map to `0`/`1`,
strings parse as numeric literals, arrays coerce through their string form,
plain objects give `NaN`. -/
def jsNumber : Option JSVal → Option ℚ
  | none => none
  | some .jnull => some 0
  | some (.jbool b) => some (if b then 1 else 0)
  | some (.jnum q) => some q
  | some (.jstr s) => jsStrToNum s
  | some (.jarr l) => jsStrToNum (jsArrToString l)
  | some (.jobj _) => none

/-- Property access `v[key]` on an untyped JavaScript value: throws a
`TypeError` on `null` (and `undefined`), yields the field on an object, and
`undefined` on every other primitive or an array. -/
def jsGet : JSVal → String → Except Unit (Option JSVal)
  | .jnull, _ => .error ()
  | .jobj fields, key => .ok (fields.lookup key)
  | _, _ => .ok none

/-- `GeminiAIClient.validateRiskLevel` (src/src/gemini-ai-client.ts,
lines 428-433): strict equality against the three tier strings, `medium`
otherwise. -/
def validateRiskLevel (level : Option JSVal) : RiskLevel :=
  match level with
  | some (.jstr s) =>
    if s = "high" then .high
    else if s = "medium" then .medium
    else if s = "low" then .low
    else .medium
  | _ => .medium

/-- `GeminiAIClient.generateDefaultTestSuites` (src/src/gemini-ai-client.ts,
lines 408-426). Note the file tests here are case-sensitive `includes`,
unlike `fallbackCodeAnalysis` which lowercases first. -/
def generateDefaultTestSuites (changedFiles : List String) : List SuiteEntry :=
  let suites :=
    (if changedFiles.any (fun f => jsIncludes f "auth") then
      [{ name := "Authentication Tests", priority := RiskLevel.high,
         estimatedRunTime := (45 : ℚ) }]
     else []) ++
    (if changedFiles.any (fun f => jsIncludes f "api") then
      [{ name := "API Integration Tests", priority := RiskLevel.high,
         estimatedRunTime := (60 : ℚ) }]
     else []) ++
    (if changedFiles.any (fun f => jsIncludes f "ui" || jsIncludes f "component") then
      [{ name := "UI Component Tests", priority := RiskLevel.medium,
         estimatedRunTime := (90 : ℚ) }]
     else [])
  if suites.isEmpty then
    [{ name := "Integration Tests", priority := RiskLevel.low, estimatedRunTime := (120 : ℚ) }]
  else suites

/-- The `AICodeAnalysis` record as the JSON-parsing client populates it.
The TypeScript annotation declares `recommendations: string[]`, but
`parseCodeAnalysisResponse` copies the parsed array elements through without
conversion, so the model keeps them as raw JSON values. -/
structure AICodeAnalysisJson where
  riskLevel : RiskLevel
  failureProbability : ℚ
  confidence : ℚ
  reasoning : String
  recommendations : List JSVal
  testSuites : List SuiteEntry

/-- `GeminiAIClient.fallbackCodeAnalysis` (src/src/gemini-ai-client.ts,
lines 341-368). -/
def fallbackCodeAnalysis (changedFiles : List String) : AICodeAnalysisJson :=
  let hasAuthChanges := changedFiles.any (fun f => jsIncludes (jsToLower f) "auth")
  let hasAPIChanges := changedFiles.any (fun f => jsIncludes (jsToLower f) "api")
  let riskLevel : RiskLevel :=
    if hasAuthChanges then .high else if hasAPIChanges then .medium else .low
  let failureProbability : ℚ :=
    if hasAuthChanges then 0.75 else if hasAPIChanges then 0.45 else 0.15
  { riskLevel := riskLevel, failureProbability := failureProbability,
    confidence := 0.6,
    reasoning := "Heuristic analysis - Gemini AI unavailable",
    recommendations := [.jstr "Run affected test suites first",
      .jstr "Monitor for integration issues", .jstr "Consider additional validation"],
    testSuites := generateDefaultTestSuites changedFiles }

/-- One element of the `parsed.testSuites.map(suite => …)` body
(src/src/gemini-ai-client.ts, lines 277-281); the three property accesses
can throw when the element is `null`. -/
def parseSuiteEntry (suite : JSVal) : Except Unit SuiteEntry := do
  let n ← jsGet suite "name"
  let p ← jsGet suite "priority"
  let e ← jsGet suite "estimatedRunTime"
  pure { name := jsToString (jsOrVal n (.jstr "Integration Tests")),
         priority := validateRiskLevel p,
         estimatedRunTime := max 10 (jsOr (jsNumber e) 60) }

/-- The field-validation stage of `GeminiAIClient.parseCodeAnalysisResponse`
(src/src/gemini-ai-client.ts, lines 266-283), applied to the value produced
by `JSON.parse`. The six property accesses on `parsed` are sequenced in the
object-literal evaluation order of the source; any thrown `TypeError` lands
in the enclosing `catch`. -/
def parseCodeAnalysisCore (parsed : JSVal) (changedFiles : List String) :
    Except Unit AICodeAnalysisJson := do
  let rl ← jsGet parsed "riskLevel"
  let fp ← jsGet parsed "failureProbability"
  let cf ← jsGet parsed "confidence"
  let rs ← jsGet parsed "reasoning"
  let rc ← jsGet parsed "recommendations"
  let ts ← jsGet parsed "testSuites"
  let testSuites ← match ts with
    | some (.jarr l) => l.mapM parseSuiteEntry
    | _ => pure (generateDefaultTestSuites changedFiles)
  pure { riskLevel := validateRiskLevel rl,
         failureProbability := max 0 (min 1 (jsOr (jsNumber fp) 0.3)),
         confidence := max 0 (min 1 (jsOr (jsNumber cf) 0.8)),
         reasoning := ((jsToString (jsOrVal rs (.jstr "AI analysis completed"))).toList.take
           100).asString,
         recommendations := (match rc with
           | some (.jarr l) => l.take 3
           | _ => [.jstr "Review test coverage", .jstr "Monitor deployment"]),
         testSuites := testSuites }

/-- `GeminiAIClient.parseCodeAnalysisResponse` (src/src/gemini-ai-client.ts,
lines 242-290): the input `none` stands for a response text in which the
markdown/JSON extraction plus `JSON.parse` produced no value (the `catch`
path); otherwise the parsed value is validated field by field, and a thrown
property access also falls back to `fallbackCodeAnalysis`. -/
def parseCodeAnalysisResponse (parsedJson : Option JSVal) (changedFiles : List String) :
    AICodeAnalysisJson :=
  match parsedJson with
  | none => fallbackCodeAnalysis changedFiles
  | some parsed =>
    match parseCodeAnalysisCore parsed changedFiles with
    | .ok analysis => analysis
    | .error _ => fallbackCodeAnalysis changedFiles

/-! ## Helper lemmas -/

/-- The flaky-branch reason can never be the ceiling-branch reason: the two
strings differ in their first character. -/
theorem flaky_reason_ne_max (s : String) :
    "Flaky test detected (score: " ++ s ++ ")" ≠ "Maximum retry attempts reached" := by
  intro h
  have h2 : ("Flaky test detected (score: " ++ s ++ ")").data.head? = some 'M' := by
    rw [h]; rfl
  rw [String.data_append, String.data_append] at h2
  rw [show ("Flaky test detected (score: ").data =
    'F' :: ("laky test detected (score: ").data from rfl] at h2
  simp at h2

theorem deterministic_reason_ne_max :
    "Error pattern indicates real failure, not flakiness" ≠ "Maximum retry attempts reached" := by
  decide

/-! ## Claim C5 -/

/-- Claim C5: for every flake table, suite name, error signature and
attempt number at least 3, the failure classifier takes the hard-ceiling
branch — `shouldRetry = false` with the maximum-attempts reason (the
`action = fail`, `reasonCode = MAX_ATTEMPTS` outcome), independent of the
flake score and the error pattern — and the optimizer wrapper's action is
`fail`. -/
theorem classifier_max_attempts
    (flakePatterns : List (String × ℚ)) (testName error : String)
    (attemptNumber : ℤ) (h : 3 ≤ attemptNumber) :
    shouldRetryTest flakePatterns testName error attemptNumber =
      { shouldRetry := false, reason := "Maximum retry attempts reached",
        confidence := 0.95, recommendedDelay := 0 } ∧
    (handleTestFailure flakePatterns testName error attemptNumber).action = .fail := by
  have h' : attemptNumber ≥ 3 := h
  constructor
  · simp [shouldRetryTest, h']
  · simp [handleTestFailure, shouldRetryTest, h']

theorem classifier_max_attempts_witness :
    (3 : ℤ) ≤ 5 ∧
    (shouldRetryTest initialFlakePatterns "Authentication Tests" "ECONNRESET" 5 =
      { shouldRetry := false, reason := "Maximum retry attempts reached",
        confidence := 0.95, recommendedDelay := 0 } ∧
    (handleTestFailure initialFlakePatterns "Authentication Tests" "ECONNRESET" 5).action =
      .fail) :=
  ⟨by norm_num,
   classifier_max_attempts initialFlakePatterns "Authentication Tests" "ECONNRESET" 5
     (by norm_num)⟩

/-! ## Claim C10 -/

/-- Claim C10: the failure-handling decision is binary — although the
declared result type admits `skip`, the optimizer wrapper (and with it the
predictor-level decision it wraps) only ever produces `retry` or `fail`. -/
theorem optimizer_never_skips
    (flakePatterns : List (String × ℚ)) (testName error : String) (attemptNumber : ℤ) :
    ((handleTestFailure flakePatterns testName error attemptNumber).action = .retry ∨
     (handleTestFailure flakePatterns testName error attemptNumber).action = .fail) ∧
    (handleTestFailure flakePatterns testName error attemptNumber).action ≠ .skip := by
  unfold handleTestFailure
  dsimp only
  constructor
  · split
    · exact Or.inl rfl
    · split
      · exact Or.inr rfl
      · exact Or.inr rfl
  · split
    · simp
    · split <;> simp

/-! ## Claim C9 -/

/-- Claim C9 counterexample: a contract-violating call (empty suite name,
`attemptNumber = 0 < 1`) is not reported as a validation failure of any
kind — it returns the same ordinary `RetryDecision` as a well-formed call,
namely the deterministic-failure outcome. -/
theorem classifier_no_validation_counterexample :
    shouldRetryTest [] "" "boom" 0 = shouldRetryTest [] "suite-a" "boom" 1 ∧
    shouldRetryTest [] "" "boom" 0 =
      { shouldRetry := false,
        reason := "Error pattern indicates real failure, not flakiness",
        confidence := 0.87, recommendedDelay := 0 } := by
  have h1 : jsIncludes "boom" "timeout" = false := by decide
  have h2 : jsIncludes "boom" "network" = false := by decide
  have h3 : jsIncludes "boom" "ECONNRESET" = false := by decide
  have hq : decide (((0:ℚ)) > 0.3) = false := by
    apply decide_eq_false; norm_num
  constructor <;> simp [shouldRetryTest, h1, h2, h3, hq, List.lookup]

/-- Claim C9 (amended): the classifier performs no input validation at all.
A call with an empty suite name and `attemptNumber < 1` is processed by the
ordinary classification logic — its reason is never the ceiling reason, and
it retries exactly under the ordinary flake-score/error-marker condition
(the empty name simply looks up flake score `0` when absent) — rather than
failing with a distinct validation error; no input can fail the call. -/
theorem classifier_no_validation (flakePatterns : List (String × ℚ)) (error : String)
    (attemptNumber : ℤ) (h : attemptNumber < 1) :
    (shouldRetryTest flakePatterns "" error attemptNumber).reason ≠
      "Maximum retry attempts reached" ∧
    ((shouldRetryTest flakePatterns "" error attemptNumber).shouldRetry = true ↔
      ((((flakePatterns.lookup "").getD 0 : ℚ) > 0.3) ∨ jsIncludes error "timeout" = true ∨
        jsIncludes error "network" = true ∨ jsIncludes error "ECONNRESET" = true)) := by
  have h3 : ¬(attemptNumber ≥ 3) := by omega
  cases hb : (decide (((flakePatterns.lookup "").getD 0 : ℚ) > 0.3) ||
      (jsIncludes error "timeout" || jsIncludes error "network" ||
        jsIncludes error "ECONNRESET")) with
  | false =>
    have hr : shouldRetryTest flakePatterns "" error attemptNumber =
        { shouldRetry := false,
          reason := "Error pattern indicates real failure, not flakiness",
          confidence := 0.87, recommendedDelay := 0 } := by
      simp only [shouldRetryTest]
      rw [if_neg h3, hb]
      rfl
    refine ⟨by rw [hr]; exact deterministic_reason_ne_max, ?_⟩
    rw [hr]
    simp only [Bool.or_eq_false_iff, decide_eq_false_iff_not] at hb
    obtain ⟨hq, ⟨ht, hn⟩, he⟩ := hb
    simp [hq, ht, hn, he]
  | true =>
    have hr : shouldRetryTest flakePatterns "" error attemptNumber =
        { shouldRetry := true,
          reason := "Flaky test detected (score: " ++
            toFixed2 ((flakePatterns.lookup "").getD 0) ++ ")",
          confidence := 0.82, recommendedDelay := min (2000 * attemptNumber) 10000 } := by
      simp only [shouldRetryTest]
      rw [if_neg h3, hb]
      rfl
    refine ⟨by rw [hr]; exact flaky_reason_ne_max _, ?_⟩
    rw [hr]
    simp only [Bool.or_eq_true, decide_eq_true_eq] at hb
    constructor
    · intro _
      tauto
    · intro _
      rfl

theorem classifier_no_validation_witness :
    ((0 : ℤ) < 1) ∧
    ((shouldRetryTest [] "" "boom" 0).reason ≠ "Maximum retry attempts reached" ∧
     ((shouldRetryTest [] "" "boom" 0).shouldRetry = true ↔
       (((([] : List (String × ℚ)).lookup "").getD 0 : ℚ) > 0.3 ∨
         jsIncludes "boom" "timeout" = true ∨ jsIncludes "boom" "network" = true ∨
         jsIncludes "boom" "ECONNRESET" = true))) :=
  ⟨by norm_num, classifier_no_validation [] "boom" 0 (by norm_num)⟩

/-! ## Claim C6 -/

/-- Claim C6 counterexample: the transient-error markers are matched
case-sensitively and do not include `"connection refused"`. An error
signature equal to the claimed marker `"connection refused"` (and likewise a
capitalised `"Timeout …"`) does not trigger a retry at attempt 1 with flake
score 0, contradicting the claimed case-insensitive four-marker rule. -/
theorem classifier_markers_counterexample :
    (shouldRetryTest initialFlakePatterns "t1" "connection refused" 1).shouldRetry = false ∧
    (shouldRetryTest initialFlakePatterns "t1" "Timeout waiting for response" 1).shouldRetry =
      false := by
  have hl : (initialFlakePatterns.lookup "t1") = none := by decide
  have h1 : jsIncludes "connection refused" "timeout" = false := by decide
  have h2 : jsIncludes "connection refused" "network" = false := by decide
  have h3 : jsIncludes "connection refused" "ECONNRESET" = false := by decide
  have h4 : jsIncludes "Timeout waiting for response" "timeout" = false := by decide
  have h5 : jsIncludes "Timeout waiting for response" "network" = false := by decide
  have h6 : jsIncludes "Timeout waiting for response" "ECONNRESET" = false := by decide
  have hq : decide (((0:ℚ)) > 0.3) = false := by
    apply decide_eq_false; norm_num
  constructor <;>
    simp [shouldRetryTest, hl, h1, h2, h3, h4, h5, h6, hq]

/-- Claim C6 (amended): for `attemptNumber < 3` the classifier retries
exactly when the error signature contains one of the case-sensitive markers
`"timeout"`, `"network"`, `"ECONNRESET"` (there is no `"connection refused"`
marker and no lowercasing) or the suite's flake score exceeds `0.3`, with
`recommendedDelay = min(2000 * attemptNumber, 10000)` on the retry path; in
particular Scenario B, `classify("t1", "ECONNRESET at line 4", 1)`, retries
with backoff `2000`. -/
theorem classifier_flaky_retry :
    (∀ (flakePatterns : List (String × ℚ)) (testName error : String) (attemptNumber : ℤ),
      attemptNumber < 3 →
      (((shouldRetryTest flakePatterns testName error attemptNumber).shouldRetry = true) ↔
        (jsIncludes error "timeout" = true ∨ jsIncludes error "network" = true ∨
         jsIncludes error "ECONNRESET" = true ∨
         (((flakePatterns.lookup testName).getD 0 : ℚ) > 0.3))) ∧
      ((shouldRetryTest flakePatterns testName error attemptNumber).shouldRetry = true →
        (shouldRetryTest flakePatterns testName error attemptNumber).recommendedDelay =
          min (2000 * attemptNumber) 10000)) ∧
    shouldRetryTest initialFlakePatterns "t1" "ECONNRESET at line 4" 1 =
      { shouldRetry := true, reason := "Flaky test detected (score: 0.00)",
        confidence := 0.82, recommendedDelay := 2000 } := by
  constructor
  · intro flakePatterns testName error attemptNumber h
    have h3 : ¬(attemptNumber ≥ 3) := by omega
    cases hb : (decide (((flakePatterns.lookup testName).getD 0 : ℚ) > 0.3) ||
        (jsIncludes error "timeout" || jsIncludes error "network" ||
          jsIncludes error "ECONNRESET")) with
    | false =>
      have hr : shouldRetryTest flakePatterns testName error attemptNumber =
          { shouldRetry := false,
            reason := "Error pattern indicates real failure, not flakiness",
            confidence := 0.87, recommendedDelay := 0 } := by
        simp only [shouldRetryTest]
        rw [if_neg h3, hb]
        rfl
      simp only [Bool.or_eq_false_iff, decide_eq_false_iff_not] at hb
      obtain ⟨hq, ⟨ht, hn⟩, he⟩ := hb
      rw [hr]
      exact ⟨by simp [hq, ht, hn, he], by simp⟩
    | true =>
      have hr : shouldRetryTest flakePatterns testName error attemptNumber =
          { shouldRetry := true,
            reason := "Flaky test detected (score: " ++
              toFixed2 ((flakePatterns.lookup testName).getD 0) ++ ")",
            confidence := 0.82, recommendedDelay := min (2000 * attemptNumber) 10000 } := by
        simp only [shouldRetryTest]
        rw [if_neg h3, hb]
        rfl
      simp only [Bool.or_eq_true, decide_eq_true_eq] at hb
      rw [hr]
      refine ⟨⟨fun _ => by tauto, fun _ => rfl⟩, fun _ => rfl⟩
  · have hl : (initialFlakePatterns.lookup "t1") = none := by decide
    have h1 : jsIncludes "ECONNRESET at line 4" "ECONNRESET" = true := by decide
    have hfix : toFixed2 ((0:ℚ)) = "0.00" := by
      have hf : jsRound ((0:ℚ)) = 0 := by norm_num [jsRound]
      simp only [toFixed2, zero_mul, hf, Int.toNat_zero, Nat.zero_div, Nat.zero_mod]
      rfl
    simp [shouldRetryTest, hl, h1, hfix]

theorem classifier_flaky_retry_witness :
    ((1 : ℤ) < 3) ∧
    ((((shouldRetryTest [] "t9" "socket timeout" 1).shouldRetry = true) ↔
      (jsIncludes "socket timeout" "timeout" = true ∨
       jsIncludes "socket timeout" "network" = true ∨
       jsIncludes "socket timeout" "ECONNRESET" = true ∨
       ((([] : List (String × ℚ)).lookup "t9").getD 0 : ℚ) > 0.3)) ∧
     ((shouldRetryTest [] "t9" "socket timeout" 1).shouldRetry = true →
       (shouldRetryTest [] "t9" "socket timeout" 1).recommendedDelay =
         min (2000 * (1:ℤ)) 10000)) :=
  ⟨by norm_num, classifier_flaky_retry.1 [] "t9" "socket timeout" 1 (by norm_num)⟩

/-! ## Claim C4 -/

/-- Claim C4: for the four scores in `[0, 1]` and any critical-issue list the
gate approves exactly when the average of the four scores exceeds `0.85` and
the critical-issue list is empty (one unresolved critical issue holds even a
perfect score), with `confidenceScore = round(average * 100)`; Scenario D,
`decide({0.92, 0.95, 0.88, 0.87}, [])`, approves with score `91`. -/
theorem deployment_gate_policy :
    (∀ data : DeploymentData,
      (0 ≤ data.testSuccessRate ∧ data.testSuccessRate ≤ 1 ∧
       0 ≤ data.securityScore ∧ data.securityScore ≤ 1 ∧
       0 ≤ data.performanceScore ∧ data.performanceScore ≤ 1 ∧
       0 ≤ data.codeQuality ∧ data.codeQuality ≤ 1) →
      (((makeAIDeploymentDecision data).approved = true) ↔
        ((data.testSuccessRate + data.securityScore + data.performanceScore +
          data.codeQuality) / 4 > 0.85 ∧ data.criticalIssues = [])) ∧
      (makeAIDeploymentDecision data).score =
        jsRound ((data.testSuccessRate + data.securityScore + data.performanceScore +
          data.codeQuality) / 4 * 100)) ∧
    (makeAIDeploymentDecision
      { testSuccessRate := 0.92, securityScore := 0.95, performanceScore := 0.88,
        codeQuality := 0.87, criticalIssues := [] }).approved = true ∧
    (makeAIDeploymentDecision
      { testSuccessRate := 0.92, securityScore := 0.95, performanceScore := 0.88,
        codeQuality := 0.87, criticalIssues := [] }).score = 91 := by
  refine ⟨fun data _ => ⟨?_, rfl⟩, ?_, ?_⟩
  · simp [makeAIDeploymentDecision, List.length_eq_zero]
  · have hgt : ((0.92 : ℚ) + 0.95 + 0.88 + 0.87) / 4 > 0.85 := by norm_num
    simp [makeAIDeploymentDecision, hgt]
  · have hr : jsRound (((0.92 : ℚ) + 0.95 + 0.88 + 0.87) / 4 * 100) = 91 := by
      norm_num [jsRound]
    simpa [makeAIDeploymentDecision] using hr

theorem deployment_gate_policy_witness :
    ((0:ℚ) ≤ 0.78 ∧ (0.78:ℚ) ≤ 1 ∧ (0:ℚ) ≤ 0.95 ∧ (0.95:ℚ) ≤ 1 ∧
     (0:ℚ) ≤ 0.72 ∧ (0.72:ℚ) ≤ 1 ∧ (0:ℚ) ≤ 0.79 ∧ (0.79:ℚ) ≤ 1) ∧
    ((((makeAIDeploymentDecision
      { testSuccessRate := 0.78, securityScore := 0.95, performanceScore := 0.72,
        codeQuality := 0.79, criticalIssues := ["compile error"] }).approved = true) ↔
        (((0.78:ℚ) + 0.95 + 0.72 + 0.79) / 4 > 0.85 ∧
          (["compile error"] : List String) = [])) ∧
     (makeAIDeploymentDecision
      { testSuccessRate := 0.78, securityScore := 0.95, performanceScore := 0.72,
        codeQuality := 0.79, criticalIssues := ["compile error"] }).score =
        jsRound (((0.78:ℚ) + 0.95 + 0.72 + 0.79) / 4 * 100)) :=
  ⟨by norm_num,
   deployment_gate_policy.1
     { testSuccessRate := 0.78, securityScore := 0.95, performanceScore := 0.72,
       codeQuality := 0.79, criticalIssues := ["compile error"] } (by norm_num)⟩

/-! ## Claim C7 -/

theorem predictTestsForChange_length (change : CodeChange) :
    (predictTestsForChange change).length = 1 := by
  rcases change with ⟨f, k, n, cat⟩
  cases cat <;> rfl

theorem flatMap_predict_length (changes : List CodeChange) :
    (changes.flatMap predictTestsForChange).length = changes.length := by
  induction changes with
  | nil => rfl
  | cons c t ih =>
    simp [List.flatMap_cons, predictTestsForChange_length, ih]
    omega

def authChangeA : CodeChange :=
  { file := "src/auth/login.ts", changeType := .modified, linesChanged := 5,
    category := .auth }

def authChangeB : CodeChange :=
  { file := "src/auth/token.ts", changeType := .modified, linesChanged := 7,
    category := .auth }

/-- Claim C7 counterexample: the fallback predictor does not de-duplicate by
suite name — a change set with two `auth` changes yields two predictions,
both named `"Authentication Tests"`, not one. -/
theorem predictor_dedup_counterexample :
    (analyzeCodeChangesFallback [authChangeA, authChangeB]).length = 2 ∧
    ((analyzeCodeChangesFallback [authChangeA, authChangeB]).map
      (·.testSuite)).count "Authentication Tests" = 2 := by
  constructor
  · rw [analyzeCodeChangesFallback, List.length_mergeSort, flatMap_predict_length]
    rfl
  · have hperm : ((analyzeCodeChangesFallback [authChangeA, authChangeB]).map
        (·.testSuite)).Perm
        (([authChangeA, authChangeB].flatMap predictTestsForChange).map (·.testSuite)) :=
      (List.mergeSort_perm _ _).map _
    rw [hperm.count_eq]
    decide

/-- Claim C7 (amended): the fallback predictor keeps one prediction per
change — duplicates of a suite name are retained, not merged — and the
output is the stable descending sort of those per-change predictions by
`failureProbability` (the comparator uses no suite-name tie-break; equal
probabilities keep generation order), which is deterministic. -/
theorem predictor_order_deterministic (changes : List CodeChange) :
    (analyzeCodeChangesFallback changes).length = changes.length ∧
    (analyzeCodeChangesFallback changes).Perm (changes.flatMap predictTestsForChange) ∧
    (analyzeCodeChangesFallback changes).Pairwise
      (fun a b => b.failureProbability ≤ a.failureProbability) := by
  refine ⟨?_, ?_, ?_⟩
  · rw [analyzeCodeChangesFallback, List.length_mergeSort, flatMap_predict_length]
  · exact List.mergeSort_perm _ _
  · have hs := @List.sorted_mergeSort _ probDescLE
      (fun a b c hab hbc => by
        simp only [probDescLE, decide_eq_true_eq] at hab hbc ⊢
        exact le_trans hbc hab)
      (fun a b => by
        simp only [probDescLE, Bool.or_eq_true, decide_eq_true_eq]
        exact le_total b.failureProbability a.failureProbability)
      (changes.flatMap predictTestsForChange)
    exact hs.imp (fun h => by simpa [probDescLE] using h)

/-! ## Claim C8 -/

theorem filter_three_partition_perm {α : Type} (p₁ p₂ p₃ : α → Bool)
    (h : ∀ x, (p₁ x = true ∧ p₂ x = false ∧ p₃ x = false) ∨
      (p₁ x = false ∧ p₂ x = true ∧ p₃ x = false) ∨
      (p₁ x = false ∧ p₂ x = false ∧ p₃ x = true)) :
    ∀ l : List α, (l.filter p₁ ++ l.filter p₂ ++ l.filter p₃).Perm l := by
  intro l
  induction l with
  | nil => simp
  | cons a t ih =>
    rcases h a with ⟨h1, h2, h3⟩ | ⟨h1, h2, h3⟩ | ⟨h1, h2, h3⟩
    · simp only [List.filter_cons, h1, h2, h3, if_pos, if_neg, cond_true, cond_false]
      exact ih.cons a
    · simp only [List.filter_cons, h1, h2, h3]
      exact List.Perm.trans (List.perm_middle.append_right (t.filter p₃)) (ih.cons a)
    · simp only [List.filter_cons, h1, h2, h3]
      exact List.Perm.trans List.perm_middle (ih.cons a)

theorem priority_partition_perm (predictions : List TestPrediction) :
    (predictions.filter (fun p => p.priority == RiskLevel.high) ++
     predictions.filter (fun p => p.priority == RiskLevel.medium) ++
     predictions.filter (fun p => p.priority == RiskLevel.low)).Perm predictions :=
  filter_three_partition_perm _ _ _
    (fun p => by cases hp : p.priority <;> decide) predictions

theorem flatten_filter_pos {α : Type} : ∀ gs : List (List α),
    ((gs.filter (fun g => decide (0 < g.length))).flatten) = gs.flatten := by
  intro gs
  induction gs with
  | nil => rfl
  | cons g t ih =>
    cases g with
    | nil => simpa using ih
    | cons x xs => simpa using ih

theorem jsObjSet_not_mem (v : SuiteAlloc) (key : String) :
    ∀ acc : List (String × SuiteAlloc), key ∉ acc.map Prod.fst →
      jsObjSet v key acc = acc ++ [(key, v)] := by
  intro acc
  induction acc with
  | nil => intro _; rfl
  | cons kv t ih =>
    intro h
    rcases kv with ⟨k, w⟩
    simp only [List.map_cons, List.mem_cons] at h
    push_neg at h
    obtain ⟨hk, ht⟩ := h
    have hne : (k == key) = false := beq_eq_false_iff_ne.mpr (fun he => hk he.symm)
    simp [jsObjSet, hne, ih ht]

theorem foldl_jsObjSet_keys (f : TestPrediction → SuiteAlloc) :
    ∀ (preds : List TestPrediction) (acc : List (String × SuiteAlloc)),
      (acc.map Prod.fst ++ preds.map (·.testSuite)).Nodup →
      ((preds.foldl (fun a p => jsObjSet (f p) p.testSuite a) acc).map Prod.fst) =
        acc.map Prod.fst ++ preds.map (·.testSuite) := by
  intro preds
  induction preds with
  | nil => intro acc _; simp
  | cons p t ih =>
    intro acc h
    simp only [List.map_cons] at h
    have hsplit := List.nodup_append.mp h
    have hnot : p.testSuite ∉ acc.map Prod.fst := by
      intro hmem
      exact (hsplit.2.2 hmem) (by simp)
    simp only [List.foldl_cons]
    rw [jsObjSet_not_mem _ _ _ hnot]
    have h2 : ((acc ++ [(p.testSuite, f p)]).map Prod.fst ++
        t.map (·.testSuite)).Nodup := by
      simp only [List.map_append, List.map_cons, List.map_nil, List.append_assoc,
        List.singleton_append]
      simpa using h
    rw [ih _ h2]
    simp

/-- Claim C8: for predictions with pairwise-distinct suite names, the
generated strategy places every suite name in exactly one tier group and
gives it exactly one resource-allocation entry: the concatenation of the
tier groups and the allocation key list are both permutations of the input
suite names, and both are duplicate-free. -/
theorem strategy_coverage (flakePatterns : List (String × ℚ))
    (predictions : List TestPrediction)
    (h : (predictions.map (·.testSuite)).Nodup) :
    ((generateOptimizationStrategy flakePatterns predictions).parallelGroups.flatten).Perm
      (predictions.map (·.testSuite)) ∧
    ((generateOptimizationStrategy flakePatterns predictions).parallelGroups.flatten).Nodup ∧
    (((generateOptimizationStrategy flakePatterns predictions).resourceAllocation.map
      Prod.fst)).Perm (predictions.map (·.testSuite)) ∧
    ((generateOptimizationStrategy flakePatterns predictions).resourceAllocation.map
      Prod.fst).Nodup := by
  have hpg : (generateOptimizationStrategy flakePatterns predictions).parallelGroups =
      [(predictions.filter (fun p => p.priority == RiskLevel.high)).map (·.testSuite),
       (predictions.filter (fun p => p.priority == RiskLevel.medium)).map (·.testSuite),
       (predictions.filter (fun p => p.priority == RiskLevel.low)).map (·.testSuite)].filter
        (fun group => decide (0 < group.length)) := rfl
  have hgroups : ((generateOptimizationStrategy flakePatterns
      predictions).parallelGroups.flatten).Perm (predictions.map (·.testSuite)) := by
    rw [hpg, flatten_filter_pos]
    simp only [List.flatten_cons, List.flatten_nil, List.append_nil, ← List.append_assoc,
      ← List.map_append]
    exact (priority_partition_perm predictions).map _
  have halloc : (((generateOptimizationStrategy flakePatterns
      predictions).resourceAllocation.map Prod.fst)) = predictions.map (·.testSuite) := by
    have hk := foldl_jsObjSet_keys
      (fun pred =>
        { runners := if pred.priority == RiskLevel.high then 2 else 1,
          timeout := if pred.priority == RiskLevel.high then pred.estimatedRunTime * 2
            else pred.estimatedRunTime * 1.5,
          retries := calculateRetries flakePatterns pred })
      predictions [] (by simpa using h)
    simpa using hk
  exact ⟨hgroups, hgroups.nodup_iff.mpr h, halloc ▸ List.Perm.refl _, halloc ▸ h⟩

/-! ## Claim C3 -/

/-- Proof-side abbreviation for the body of the parallel branch of
`calculateOptimizedTime`: the `Math.max` over the run times of the
predictions whose suite name lies in the group. -/
def groupTimeOf (predictions : List TestPrediction) (group : List String) : ℚ :=
  maxQ ((predictions.filter (fun p => group.contains p.testSuite)).map (·.estimatedRunTime))

theorem foldl_add_map {α : Type} (f : α → ℚ) (l : List α) :
    ∀ a : ℚ, l.foldl (fun acc x => acc + f x) a = a + (l.map f).sum := by
  induction l with
  | nil => intro a; simp
  | cons x t ih => intro a; simp [ih, add_assoc]

theorem calculateOptimizedTime_eq (preds : List TestPrediction)
    (groups : List (List String)) :
    calculateOptimizedTime preds groups =
      if groups.length = 0 then preds.foldl (fun sum p => sum + p.estimatedRunTime) 0
      else (groups.map (groupTimeOf preds)).sum := by
  unfold calculateOptimizedTime
  split
  · rfl
  · show groups.foldl (fun acc g => acc + groupTimeOf preds g) 0 =
      (groups.map (groupTimeOf preds)).sum
    rw [foldl_add_map]
    simp

theorem groupTests_eq (predictions : List TestPrediction)
    (h : (predictions.map (·.testSuite)).Nodup) (pr : TestPrediction → Bool) :
    predictions.filter (fun p =>
      ((predictions.filter pr).map (·.testSuite)).contains p.testSuite) =
      predictions.filter pr := by
  apply List.filter_congr
  intro p hp
  cases hpr : pr p with
  | true =>
    have hmem : p.testSuite ∈ (predictions.filter pr).map (·.testSuite) :=
      List.mem_map.mpr ⟨p, List.mem_filter.mpr ⟨hp, hpr⟩, rfl⟩
    simpa [List.contains, List.elem_iff] using hmem
  | false =>
    simp only [List.contains]
    rw [Bool.eq_false_iff]
    intro htrue
    obtain ⟨q, hqf, hqn⟩ := List.mem_map.mp (List.elem_iff.mp htrue)
    have hq : q ∈ predictions := (List.mem_filter.mp hqf).1
    have : q = p := List.inj_on_of_nodup_map h hq hp hqn
    rw [this] at hqf
    exact absurd ((List.mem_filter.mp hqf).2) (by simp [hpr])

/-- The change set of Scenario A: one auth, one api, one ui change; the
fallback predictor maps them to exactly the three predictions of the
scenario — Authentication Tests (high, 0.78, 45 s), API Integration Tests
(high, 0.65, 60 s), UI Component Tests (medium, 0.34, 90 s). -/
def scenarioAChanges : List CodeChange :=
  [{ file := "src/auth/login.ts", changeType := .modified, linesChanged := 5,
     category := .auth },
   { file := "src/api/users.ts", changeType := .modified, linesChanged := 3,
     category := .api },
   { file := "src/ui/button.tsx", changeType := .modified, linesChanged := 2,
     category := .ui }]

def scenarioAPredictions : List TestPrediction :=
  scenarioAChanges.flatMap predictTestsForChange

/-- Claim C3: the strategy's total estimated time equals the sum, over the
non-empty tier groups, of the maximum run time within each group
(`specTotalEstimatedSeconds`, stated from the spec) for every prediction
list with distinct suite names (their uniqueness per cycle is a stated
`SuitePrediction` invariant); the empty list yields zero groups and total
`0`, and Scenario A yields two tier groups and total
`max(45, 60) + 90 = 150`. -/
theorem strategy_total_time :
    (∀ (flakePatterns : List (String × ℚ)) (predictions : List TestPrediction),
      (predictions.map (·.testSuite)).Nodup →
      (generateOptimizationStrategy flakePatterns predictions).totalEstimatedTime =
        specTotalEstimatedSeconds predictions) ∧
    ((generateOptimizationStrategy [] []).parallelGroups = [] ∧
     (generateOptimizationStrategy [] []).totalEstimatedTime = 0) ∧
    ((generateOptimizationStrategy initialFlakePatterns
        scenarioAPredictions).parallelGroups.length = 2 ∧
     (generateOptimizationStrategy initialFlakePatterns
        scenarioAPredictions).totalEstimatedTime = 150) := by
  refine ⟨?_, ⟨rfl, rfl⟩, ?_, ?_⟩
  · intro flakePatterns predictions h
    have htt : (generateOptimizationStrategy flakePatterns predictions).totalEstimatedTime =
        calculateOptimizedTime predictions
          ([(predictions.filter (fun p => p.priority == RiskLevel.high)).map (·.testSuite),
            (predictions.filter (fun p => p.priority == RiskLevel.medium)).map (·.testSuite),
            (predictions.filter (fun p => p.priority == RiskLevel.low)).map
              (·.testSuite)].filter (fun group => decide (0 < group.length))) := rfl
    rw [htt, calculateOptimizedTime_eq]
    split
    · next hlen =>
      have hfe := List.length_eq_zero.mp hlen
      rw [List.filter_eq_nil_iff] at hfe
      have hH : predictions.filter (fun p => p.priority == RiskLevel.high) = [] := by
        have := hfe _ (by simp : (predictions.filter
          (fun p => p.priority == RiskLevel.high)).map (·.testSuite) ∈ _)
        simpa [List.map_eq_nil_iff] using this
      have hM : predictions.filter (fun p => p.priority == RiskLevel.medium) = [] := by
        have := hfe _ (by simp : (predictions.filter
          (fun p => p.priority == RiskLevel.medium)).map (·.testSuite) ∈ _)
        simpa [List.map_eq_nil_iff] using this
      have hL : predictions.filter (fun p => p.priority == RiskLevel.low) = [] := by
        have := hfe _ (by simp : (predictions.filter
          (fun p => p.priority == RiskLevel.low)).map (·.testSuite) ∈ _)
        simpa [List.map_eq_nil_iff] using this
      have hnil : predictions = [] := by
        rw [List.eq_nil_iff_forall_not_mem]
        intro p hp
        cases hpq : p.priority with
        | high =>
          have : p ∈ predictions.filter (fun p => p.priority == RiskLevel.high) :=
            List.mem_filter.mpr ⟨hp, by rw [hpq]; decide⟩
          simp [hH] at this
        | medium =>
          have : p ∈ predictions.filter (fun p => p.priority == RiskLevel.medium) :=
            List.mem_filter.mpr ⟨hp, by rw [hpq]; decide⟩
          simp [hM] at this
        | low =>
          have : p ∈ predictions.filter (fun p => p.priority == RiskLevel.low) :=
            List.mem_filter.mpr ⟨hp, by rw [hpq]; decide⟩
          simp [hL] at this
      subst hnil
      rfl
    · next hlen =>
      have hkey : ∀ t : RiskLevel,
          groupTimeOf predictions
            ((predictions.filter (fun p => p.priority == t)).map (·.testSuite)) =
          maxQ ((predictions.filter (fun p => p.priority == t)).map
            (·.estimatedRunTime)) := by
        intro t
        unfold groupTimeOf
        rw [groupTests_eq predictions h]
      rw [show [(predictions.filter (fun p => p.priority == RiskLevel.high)).map
            (·.testSuite),
          (predictions.filter (fun p => p.priority == RiskLevel.medium)).map (·.testSuite),
          (predictions.filter (fun p => p.priority == RiskLevel.low)).map (·.testSuite)] =
          [predictions.filter (fun p => p.priority == RiskLevel.high),
           predictions.filter (fun p => p.priority == RiskLevel.medium),
           predictions.filter (fun p => p.priority == RiskLevel.low)].map
            (List.map (·.testSuite)) from rfl]
      rw [List.filter_map, List.map_map]
      have hpos : ([predictions.filter (fun p => p.priority == RiskLevel.high),
           predictions.filter (fun p => p.priority == RiskLevel.medium),
           predictions.filter (fun p => p.priority == RiskLevel.low)].filter
            ((fun group => decide (0 < group.length)) ∘ List.map (·.testSuite))) =
          ([predictions.filter (fun p => p.priority == RiskLevel.high),
           predictions.filter (fun p => p.priority == RiskLevel.medium),
           predictions.filter (fun p => p.priority == RiskLevel.low)].filter
            (fun g => decide (0 < g.length))) := by
        apply List.filter_congr
        intro T _
        simp [Function.comp, List.length_map]
      rw [hpos]
      have hmap : (([predictions.filter (fun p => p.priority == RiskLevel.high),
           predictions.filter (fun p => p.priority == RiskLevel.medium),
           predictions.filter (fun p => p.priority == RiskLevel.low)].filter
            (fun g => decide (0 < g.length))).map
              (groupTimeOf predictions ∘ List.map (·.testSuite))) =
          (([predictions.filter (fun p => p.priority == RiskLevel.high),
           predictions.filter (fun p => p.priority == RiskLevel.medium),
           predictions.filter (fun p => p.priority == RiskLevel.low)].filter
            (fun g => decide (0 < g.length))).map
              (fun g => maxQ (g.map (·.estimatedRunTime)))) := by
        apply List.map_congr_left
        intro T hT
        have hTmem := (List.mem_filter.mp hT).1
        simp only [List.mem_cons, List.not_mem_nil, or_false] at hTmem
        rcases hTmem with hT1 | hT2 | hT3
        · rw [hT1]; exact hkey RiskLevel.high
        · rw [hT2]; exact hkey RiskLevel.medium
        · rw [hT3]; exact hkey RiskLevel.low
      rw [hmap]
      unfold specTotalEstimatedSeconds
      simp only [List.map_cons, List.map_nil]
  · have hl : (scenarioAPredictions.map (·.testSuite)) =
        ["Authentication Tests", "API Integration Tests", "UI Component Tests"] := by
      decide
    simp +decide [generateOptimizationStrategy, scenarioAPredictions, scenarioAChanges,
      predictTestsForChange, List.flatMap]
  · simp +decide [generateOptimizationStrategy, calculateOptimizedTime,
      scenarioAPredictions, scenarioAChanges, predictTestsForChange, List.flatMap, maxQ]
    norm_num

theorem strategy_total_time_witness :
    ((scenarioAPredictions.map (·.testSuite)).Nodup) ∧
    (generateOptimizationStrategy initialFlakePatterns
      scenarioAPredictions).totalEstimatedTime =
      specTotalEstimatedSeconds scenarioAPredictions :=
  ⟨by decide, strategy_total_time.1 initialFlakePatterns scenarioAPredictions (by decide)⟩

theorem strategy_coverage_witness :
    ((scenarioAPredictions.map (·.testSuite)).Nodup) ∧
    (((generateOptimizationStrategy initialFlakePatterns
        scenarioAPredictions).parallelGroups.flatten).Perm
      (scenarioAPredictions.map (·.testSuite)) ∧
    ((generateOptimizationStrategy initialFlakePatterns
        scenarioAPredictions).parallelGroups.flatten).Nodup ∧
    (((generateOptimizationStrategy initialFlakePatterns
        scenarioAPredictions).resourceAllocation.map Prod.fst)).Perm
      (scenarioAPredictions.map (·.testSuite)) ∧
    ((generateOptimizationStrategy initialFlakePatterns
        scenarioAPredictions).resourceAllocation.map Prod.fst).Nodup) :=
  ⟨by decide, strategy_coverage initialFlakePatterns scenarioAPredictions (by decide)⟩

/-! ## Claim C1 -/

/-- Claim C1 fails on the code: on the raw oracle text
`"failure probability: ."` the regex capture is `"."`, `parseFloat(".")` is
`NaN`, and `Math.max(0, Math.min(1, NaN))` is again `NaN` — so the plain-text
normalizer returns a `failureProbability` of `NaN` (`none` in the model),
outside the claimed `[0, 1]` range. The spec explicitly requires that the
normalizer never propagate `NaN`, and the sibling JSON normalizer
(`parseCodeAnalysisResponse`) does guard the same coercion with `|| 0.3`,
so this is a slip in the code, not in the claim. -/
theorem normalizer_nan_escape :
    (parseResponse "failure probability: ." []).failureProbability = none := by
  decide

/-! ## Claim C2 -/

/-- Validity of a raw `riskLevel` field: exactly the values the strict
equality chain of `validateRiskLevel` accepts. -/
def tierFieldValid : Option JSVal → Bool
  | some (.jstr s) => s == "high" || s == "medium" || s == "low"
  | _ => false

/-- A raw `testSuites` field whose array elements are all non-`null`, so the
per-suite property accesses cannot throw. -/
def noNullElems : Option JSVal → Bool
  | some (.jarr l) => l.all (fun v => match v with | .jnull => false | _ => true)
  | _ => true

theorem validateRiskLevel_invalid (v : Option JSVal) (h : tierFieldValid v = false) :
    validateRiskLevel v = .medium := by
  cases v with
  | none => rfl
  | some x =>
    cases x with
    | jstr s =>
      simp only [tierFieldValid, Bool.or_eq_false_iff, beq_eq_false_iff_ne] at h
      simp [validateRiskLevel, h.1.1, h.1.2, h.2]
    | jnull => rfl
    | jbool b => rfl
    | jnum q => rfl
    | jarr l => rfl
    | jobj kvs => rfl

theorem jsGet_ok (v : JSVal) (hv : v ≠ .jnull) (key : String) :
    ∃ r, jsGet v key = .ok r := by
  cases v with
  | jnull => exact absurd rfl hv
  | jbool b => exact ⟨none, rfl⟩
  | jnum q => exact ⟨none, rfl⟩
  | jstr s => exact ⟨none, rfl⟩
  | jarr l => exact ⟨none, rfl⟩
  | jobj kvs => exact ⟨kvs.lookup key, rfl⟩

theorem parseSuiteEntry_ok (v : JSVal) (hv : v ≠ .jnull) :
    ∃ e, parseSuiteEntry v = .ok e := by
  obtain ⟨r1, h1⟩ := jsGet_ok v hv "name"
  obtain ⟨r2, h2⟩ := jsGet_ok v hv "priority"
  obtain ⟨r3, h3⟩ := jsGet_ok v hv "estimatedRunTime"
  refine ⟨{ name := jsToString (jsOrVal r1 (.jstr "Integration Tests")),
            priority := validateRiskLevel r2,
            estimatedRunTime := max 10 (jsOr (jsNumber r3) 60) }, ?_⟩
  simp [parseSuiteEntry, h1, h2, h3]
  rfl

theorem mapM_parseSuiteEntry_ok : ∀ l : List JSVal,
    (∀ v ∈ l, v ≠ JSVal.jnull) → ∃ out, l.mapM parseSuiteEntry = .ok out := by
  intro l
  induction l with
  | nil => exact fun _ => ⟨[], rfl⟩
  | cons v t ih =>
    intro hall
    obtain ⟨e, he⟩ := parseSuiteEntry_ok v (hall v (by simp))
    obtain ⟨out, hout⟩ := ih (fun w hw => hall w (by simp [hw]))
    refine ⟨e :: out, ?_⟩
    rw [List.mapM_cons, he]
    show (t.mapM parseSuiteEntry >>= fun bs => pure (e :: bs)) = Except.ok (e :: out)
    rw [hout]
    rfl

/-- Proof-side abbreviation: the record `parseCodeAnalysisCore` returns,
parametrised by the already-computed test-suite list. -/
def coreRecord (kvs : List (String × JSVal)) (_changedFiles : List String)
    (suites : List SuiteEntry) : AICodeAnalysisJson :=
  { riskLevel := validateRiskLevel (kvs.lookup "riskLevel"),
    failureProbability :=
      max 0 (min 1 (jsOr (jsNumber (kvs.lookup "failureProbability")) 0.3)),
    confidence := max 0 (min 1 (jsOr (jsNumber (kvs.lookup "confidence")) 0.8)),
    reasoning := ((jsToString (jsOrVal (kvs.lookup "reasoning")
      (.jstr "AI analysis completed"))).toList.take 100).asString,
    recommendations := (match kvs.lookup "recommendations" with
      | some (.jarr l) => l.take 3
      | _ => [.jstr "Review test coverage", .jstr "Monitor deployment"]),
    testSuites := suites }

theorem parseCodeAnalysisCore_ok (kvs : List (String × JSVal))
    (changedFiles : List String)
    (hts : noNullElems (kvs.lookup "testSuites") = true) :
    ∃ suites, parseCodeAnalysisCore (.jobj kvs) changedFiles =
      .ok (coreRecord kvs changedFiles suites) := by
  have hcore : parseCodeAnalysisCore (.jobj kvs) changedFiles =
      (match kvs.lookup "testSuites" with
        | some (.jarr l) => l.mapM parseSuiteEntry >>=
            fun suites => pure (coreRecord kvs changedFiles suites)
        | _ => pure (coreRecord kvs changedFiles
            (generateDefaultTestSuites changedFiles))) := by
    rfl
  rw [hcore]
  cases hl : kvs.lookup "testSuites" with
  | none => exact ⟨generateDefaultTestSuites changedFiles, rfl⟩
  | some v =>
    cases v with
    | jarr l =>
      rw [hl] at hts
      simp only [noNullElems, List.all_eq_true] at hts
      have hnn : ∀ w ∈ l, w ≠ JSVal.jnull := by
        intro w hw heq
        have h2 := hts w hw
        rw [heq] at h2
        exact absurd h2 (by simp)
      obtain ⟨out, hout⟩ := mapM_parseSuiteEntry_ok l hnn
      refine ⟨out, ?_⟩
      show (l.mapM parseSuiteEntry >>= fun suites =>
        pure (coreRecord kvs changedFiles suites)) =
        Except.ok (coreRecord kvs changedFiles out)
      rw [hout]
      rfl
    | jnull => exact ⟨generateDefaultTestSuites changedFiles, rfl⟩
    | jbool b => exact ⟨generateDefaultTestSuites changedFiles, rfl⟩
    | jnum q => exact ⟨generateDefaultTestSuites changedFiles, rfl⟩
    | jstr s => exact ⟨generateDefaultTestSuites changedFiles, rfl⟩
    | jobj k2 => exact ⟨generateDefaultTestSuites changedFiles, rfl⟩

/-- Claim C2 counterexample: on a raw oracle object with every field absent
(the empty JSON object), the JSON normalizer substitutes confidence `0.8`,
not the claimed documented default `0.6`. -/
theorem normalizer_defaults_counterexample :
    (parseCodeAnalysisResponse (some (.jobj [])) []).confidence = 0.8 ∧
    (0.8 : ℚ) ≠ 0.6 := by
  constructor
  · obtain ⟨suites, hs⟩ := parseCodeAnalysisCore_ok [] [] rfl
    have hres : parseCodeAnalysisResponse (some (.jobj [])) [] =
        coreRecord [] [] suites := by
      show (match parseCodeAnalysisCore (.jobj []) [] with
        | .ok a => a
        | .error _ => fallbackCodeAnalysis []) = coreRecord [] [] suites
      rw [hs]
    rw [hres]
    show max 0 (min 1 (jsOr (jsNumber (([] : List (String × JSVal)).lookup
      "confidence")) 0.8)) = 0.8
    norm_num [jsOr, jsNumber, List.lookup]
  · norm_num

/-- Claim C2 (amended): the substituted defaults are per-field — tier
`medium` and probability `0.3` as claimed, but confidence `0.8`, not `0.6` —
and an uninspectable raw input (no parseable JSON, modelled `none`) does not
yield a fixed default assessment: it falls back to the heuristic file-based
analysis, which for a file list without auth/api markers gives tier `low`,
probability `0.15`, confidence `0.6`. -/
theorem normalizer_defaults :
    (∀ changedFiles, parseCodeAnalysisResponse none changedFiles =
      fallbackCodeAnalysis changedFiles) ∧
    ((fallbackCodeAnalysis []).riskLevel = .low ∧
     (fallbackCodeAnalysis []).failureProbability = 0.15 ∧
     (fallbackCodeAnalysis []).confidence = 0.6) ∧
    (∀ (kvs : List (String × JSVal)) (changedFiles : List String),
      tierFieldValid (kvs.lookup "riskLevel") = false →
      (jsNumber (kvs.lookup "failureProbability") = none ∨
        jsNumber (kvs.lookup "failureProbability") = some 0) →
      (jsNumber (kvs.lookup "confidence") = none ∨
        jsNumber (kvs.lookup "confidence") = some 0) →
      noNullElems (kvs.lookup "testSuites") = true →
      (parseCodeAnalysisResponse (some (.jobj kvs)) changedFiles).riskLevel = .medium ∧
      (parseCodeAnalysisResponse (some (.jobj kvs)) changedFiles).failureProbability =
        0.3 ∧
      (parseCodeAnalysisResponse (some (.jobj kvs)) changedFiles).confidence = 0.8) := by
  refine ⟨fun changedFiles => rfl, ⟨rfl, rfl, rfl⟩, ?_⟩
  intro kvs changedFiles htier hfp hcf hts
  obtain ⟨suites, hs⟩ := parseCodeAnalysisCore_ok kvs changedFiles hts
  have hres : parseCodeAnalysisResponse (some (.jobj kvs)) changedFiles =
      coreRecord kvs changedFiles suites := by
    show (match parseCodeAnalysisCore (.jobj kvs) changedFiles with
      | .ok a => a
      | .error _ => fallbackCodeAnalysis changedFiles) =
      coreRecord kvs changedFiles suites
    rw [hs]
  refine ⟨?_, ?_, ?_⟩
  · rw [hres]
    exact validateRiskLevel_invalid _ htier
  · rw [hres]
    show max 0 (min 1 (jsOr (jsNumber (kvs.lookup "failureProbability")) 0.3)) = 0.3
    rcases hfp with h | h <;> rw [h] <;> norm_num [jsOr]
  · rw [hres]
    show max 0 (min 1 (jsOr (jsNumber (kvs.lookup "confidence")) 0.8)) = 0.8
    rcases hcf with h | h <;> rw [h] <;> norm_num [jsOr]

theorem normalizer_defaults_witness :
    (tierFieldValid (([] : List (String × JSVal)).lookup "riskLevel") = false ∧
     jsNumber (([] : List (String × JSVal)).lookup "failureProbability") = none ∧
     jsNumber (([] : List (String × JSVal)).lookup "confidence") = none ∧
     noNullElems (([] : List (String × JSVal)).lookup "testSuites") = true) ∧
    ((parseCodeAnalysisResponse (some (.jobj [])) []).riskLevel = .medium ∧
     (parseCodeAnalysisResponse (some (.jobj [])) []).failureProbability = 0.3 ∧
     (parseCodeAnalysisResponse (some (.jobj [])) []).confidence = 0.8) :=
  ⟨⟨rfl, rfl, rfl, rfl⟩,
   normalizer_defaults.2.2 [] [] rfl (Or.inl rfl) (Or.inl rfl) rfl⟩
